import Mathlib

/-!
Verification development for the medtriage consent-gated encrypted case store
(storage/crypto.py, storage/db.py, storage/case_manager.py, storage/export.py).

The SQLite-backed store is embedded shallowly: each table is a list of rows,
autoincrement ids are explicit counters, and every operation is a pure Lean
function from a database state (plus the wall-clock value read by `_now()`)
to a result and a new state.  Operations that can raise return `Except`;
an `Except.error` result corresponds to a raised exception, under SQLite's
context-manager semantics the transaction is rolled back and the state is
unchanged.  Cryptographic primitives (Fernet, SHA-256, PBKDF2) are external
library collaborators and are modelled symbolically by their documented
contracts: digests are constructor-injective terms, and a Fernet token is a
term recording the encrypting key and the plaintext, with tampered/malformed
tokens represented by a separate constructor (any bit-flip breaks the HMAC,
so a tampered token never matches a valid encryption).
-/

namespace MedTriage

/-- JSON-serialisable documents.  `json.dumps`/`json.loads` round-trip is the
identity on these values, so canonical-JSON serialisation is modelled as the
identity and plaintexts carry the document itself. -/
inductive Json where
  | null : Json
  | bool (b : Bool) : Json
  | num (n : Int) : Json
  | str (s : String) : Json
  | arr (elems : List Json) : Json
  | obj (fields : List (String × Json)) : Json

/-- Symbolic model of the cryptographic digests used by case_manager.py:
SHA-256 over a string (the username lookup key) and PBKDF2-HMAC-SHA256 over
(password, salt, iteration count).  Constructor injectivity models
collision-freeness of the real primitives. -/
inductive Digest where
  | sha256 (preimage : String) : Digest
  | pbkdf2 (password : String) (salt : String) (iterations : Nat) : Digest
deriving DecidableEq, Repr

/-- Symbolic Fernet token (storage/crypto.py): `enc` is a well-formed token
recording the key it was produced under and the JSON plaintext; `garbled`
stands for any malformed or tampered (bit-flipped) byte string, which the
authenticated-encryption check rejects. -/
inductive Token where
  | enc (key : Nat) (doc : Json) : Token
  | garbled (noise : Nat) : Token

/-- The error raised by Fernet on a bad token (`cryptography.fernet.InvalidToken`). -/
inductive CryptoErr where
  | invalidToken : CryptoErr
deriving DecidableEq, Repr

/-- storage/crypto.py `encrypt_json`: serialise to canonical JSON (identity on
`Json` values) and encrypt under the process key. -/
def encrypt_json (key : Nat) (data : Json) : Token :=
  Token.enc key data

/-- storage/crypto.py `decrypt_json`: Fernet decryption under the process key;
raises `InvalidToken` when the token is malformed, tampered with, or was
produced under a different key. -/
def decrypt_json (key : Nat) (token : Token) : Except CryptoErr Json :=
  match token with
  | Token.enc k d => if k = key then Except.ok d else Except.error CryptoErr.invalidToken
  | Token.garbled _ => Except.error CryptoErr.invalidToken

/-- Exception kinds raised by db.py / case_manager.py:
`ValueError`, `sqlite3.IntegrityError`, `PermissionError`. -/
inductive Err where
  | valueError (msg : String) : Err
  | integrityError (msg : String) : Err
  | permissionError (msg : String) : Err
deriving DecidableEq, Repr

/-- A row of the `users` table (db.py `_DDL`). -/
structure UserRow where
  id : Nat
  role : String
  display_name : String
  identifier_hash : Digest
  created_at : Nat
deriving DecidableEq, Repr

/-- A row of the `cases` table. -/
structure CaseRow where
  id : Nat
  patient_user_id : Nat
  created_at : Nat
  status : String
  triage_level : Option String
  specialty_category : Option String
  confidence_level : Option String
deriving DecidableEq, Repr

/-- A row of the `case_payloads` table (encrypted blob per case). -/
structure PayloadRow where
  case_id : Nat
  encrypted_blob : Token

/-- A row of the `shares` table (consent records). -/
structure ShareRow where
  id : Nat
  case_id : Nat
  patient_user_id : Nat
  provider_user_id : Nat
  consent_scope : String
  created_at : Nat
deriving DecidableEq, Repr

/-- A row of the append-only `audit_log` table. -/
structure AuditRow where
  id : Nat
  user_id : Nat
  action : String
  case_id : Option Nat
  timestamp : Nat
deriving DecidableEq, Repr

/-- A row of the `credentials` table added by case_manager.py: the
`"<hex_salt>:<hex_hash>"` blob is modelled structurally as the salt together
with the PBKDF2 digest (hex encoding and the colon-delimited concatenation are
a bijective representation detail; no reachable blob is malformed). -/
structure PasswordBlob where
  hex_salt : String
  hex_hash : Digest
deriving DecidableEq, Repr

/-- A row of the `credentials` table, keyed 1:1 by user id. -/
structure CredRow where
  user_id : Nat
  password_blob : PasswordBlob
deriving DecidableEq, Repr

/-- The whole SQLite database state: the five base tables of db.py plus the
`credentials` table of case_manager.py, with explicit autoincrement counters. -/
structure DB where
  users : List UserRow
  cases : List CaseRow
  case_payloads : List PayloadRow
  shares : List ShareRow
  audit_log : List AuditRow
  credentials : List CredRow
  next_user_id : Nat
  next_case_id : Nat
  next_share_id : Nat
  next_audit_id : Nat

/-- `SELECT * FROM users WHERE id = ?` (foreign-key target lookup). -/
def findUser (db : DB) (uid : Nat) : Option UserRow :=
  db.users.find? (fun u => u.id == uid)

/-- db.py `get_user_by_identifier`. -/
def get_user_by_identifier (db : DB) (identifier_hash : Digest) : Option UserRow :=
  db.users.find? (fun u => u.identifier_hash == identifier_hash)

/-- `SELECT * FROM cases WHERE id = ?`. -/
def findCase (db : DB) (cid : Nat) : Option CaseRow :=
  db.cases.find? (fun c => c.id == cid)

/-- `SELECT encrypted_blob FROM case_payloads WHERE case_id = ?`. -/
def findPayload (db : DB) (cid : Nat) : Option PayloadRow :=
  db.case_payloads.find? (fun p => p.case_id == cid)

/-- `SELECT 1 FROM shares WHERE case_id = ? AND provider_user_id = ?`. -/
def findShare (db : DB) (cid pvid : Nat) : Option ShareRow :=
  db.shares.find? (fun s => s.case_id == cid && s.provider_user_id == pvid)

/-- `SELECT password_blob FROM credentials WHERE user_id = ?`. -/
def findCred (db : DB) (uid : Nat) : Option CredRow :=
  db.credentials.find? (fun c => c.user_id == uid)

/-- Number of share rows for a given (case, provider) pair. -/
def shareCount (db : DB) (cid pvid : Nat) : Nat :=
  (db.shares.filter (fun s => s.case_id == cid && s.provider_user_id == pvid)).length

/-- Number of audit rows with a given action label. -/
def auditCount (db : DB) (action : String) : Nat :=
  (db.audit_log.filter (fun a => a.action == action)).length

/-- db.py `append_audit`: pure insert into the append-only audit log.
(The audit actor is a live user row in every operation modelled here, so the
`user_id` foreign key is always satisfied and is not re-checked.) -/
def append_audit (user_id : Nat) (action : String) (case_id : Option Nat)
    (now : Nat) (db : DB) : DB :=
  { db with
      audit_log := db.audit_log ++
        [{ id := db.next_audit_id, user_id := user_id, action := action,
           case_id := case_id, timestamp := now }],
      next_audit_id := db.next_audit_id + 1 }

/-- db.py `create_user`: role validation, UNIQUE(identifier_hash) enforcement,
insert plus `user_created` audit entry in one transaction. -/
def create_user (role : String) (display_name : String) (identifier_hash : Digest)
    (now : Nat) (db : DB) : Except Err (UserRow × DB) :=
  if ¬ (role = "patient" ∨ role = "professional") then
    Except.error (Err.valueError "Invalid role")
  else if (get_user_by_identifier db identifier_hash).isSome then
    Except.error (Err.integrityError "UNIQUE constraint failed")
  else
    let u : UserRow :=
      { id := db.next_user_id, role := role, display_name := display_name,
        identifier_hash := identifier_hash, created_at := now }
    let db1 := { db with users := db.users ++ [u], next_user_id := db.next_user_id + 1 }
    Except.ok (u, append_audit u.id "user_created" none now db1)

/-- db.py `create_case`: insert the metadata row (status "open") and the
encrypted payload row in the same transaction, plus a `case_created` audit
entry.  The `patient_user_id` foreign key is enforced. -/
def create_case (key : Nat) (patient_user_id : Nat)
    (triage_level specialty_category confidence_level : Option String)
    (payload : Json) (now : Nat) (db : DB) : Except Err (CaseRow × DB) :=
  if (findUser db patient_user_id).isNone then
    Except.error (Err.integrityError "FOREIGN KEY constraint failed")
  else
    let c : CaseRow :=
      { id := db.next_case_id, patient_user_id := patient_user_id,
        created_at := now, status := "open", triage_level := triage_level,
        specialty_category := specialty_category, confidence_level := confidence_level }
    let db1 :=
      { db with
          cases := db.cases ++ [c],
          case_payloads := db.case_payloads ++
            [{ case_id := c.id, encrypted_blob := encrypt_json key payload }],
          next_case_id := db.next_case_id + 1 }
    Except.ok (c, append_audit patient_user_id "case_created" (some c.id) now db1)

/-- db.py `get_case_payload`: the single authorization choke-point.  Loads the
case (absent case ⇒ `None`, no audit); grants access to the owner, or to a
professional with any share row; otherwise appends an
`unauthorized_payload_access` audit entry and returns `None`.  On access the
`payload_read` audit entry is committed and the blob is decrypted (a Fernet
failure at that point propagates as an exception, after the audit commit). -/
def get_case_payload (key : Nat) (case_id : Nat) (requesting_user : UserRow)
    (now : Nat) (db : DB) : Except CryptoErr (Option Json) × DB :=
  match findCase db case_id with
  | none => (Except.ok none, db)
  | some case_row =>
    if case_row.patient_user_id == requesting_user.id ||
       (requesting_user.role == "professional" &&
        (findShare db case_id requesting_user.id).isSome) then
      match findPayload db case_id with
      | none => (Except.ok none, db)
      | some payload_row =>
        match decrypt_json key payload_row.encrypted_blob with
        | Except.ok doc =>
          (Except.ok (some doc),
           append_audit requesting_user.id "payload_read" (some case_id) now db)
        | Except.error e =>
          (Except.error e,
           append_audit requesting_user.id "payload_read" (some case_id) now db)
    else
      (Except.ok none,
       append_audit requesting_user.id "unauthorized_payload_access" (some case_id) now db)

/-- The row function of the status-promotion UPDATE in db.py `share_case`:
`UPDATE cases SET status = "shared" WHERE id = ? AND status = "open"`. -/
def promoteStatus (case_id : Nat) (c : CaseRow) : CaseRow :=
  if c.id == case_id && c.status == "open" then { c with status := "shared" } else c

/-- The success path of db.py `share_case`: insert the share row, run the
status-promotion UPDATE, and append the `case_shared` audit entry. -/
def share_insert (case_id patient_user_id provider_user_id : Nat)
    (consent_scope : String) (now : Nat) (db : DB) : ShareRow × DB :=
  let s : ShareRow :=
    { id := db.next_share_id, case_id := case_id,
      patient_user_id := patient_user_id, provider_user_id := provider_user_id,
      consent_scope := consent_scope, created_at := now }
  let db1 :=
    { db with
        shares := db.shares ++ [s],
        next_share_id := db.next_share_id + 1,
        cases := db.cases.map (promoteStatus case_id) }
  (s, append_audit patient_user_id "case_shared" (some case_id) now db1)

/-- db.py `share_case`: scope validation, foreign-key and
UNIQUE(case_id, provider_user_id) enforcement; on success inserts the share
row, promotes the case status from "open" to "shared" (left unchanged
otherwise), and appends a `case_shared` audit entry. -/
def share_case (case_id patient_user_id provider_user_id : Nat)
    (consent_scope : String) (now : Nat) (db : DB) : Except Err (ShareRow × DB) :=
  if ¬ (consent_scope = "read" ∨ consent_scope = "comment" ∨ consent_scope = "full") then
    Except.error (Err.valueError "consent_scope must be one of read, comment, full")
  else if (findCase db case_id).isNone ∨ (findUser db patient_user_id).isNone ∨
          (findUser db provider_user_id).isNone then
    Except.error (Err.integrityError "FOREIGN KEY constraint failed")
  else if (findShare db case_id provider_user_id).isSome then
    Except.error (Err.integrityError "UNIQUE constraint failed")
  else
    Except.ok (share_insert case_id patient_user_id provider_user_id consent_scope now db)

/-- case_manager.py `_ITERATIONS`: PBKDF2 iteration count. -/
def ITERATIONS : Nat := 260000

/-- case_manager.py `_hash_password`: PBKDF2-HMAC-SHA256 over password and
salt (the salt is 16 random bytes; randomness is passed in by the caller). -/
def hash_password (password : String) (salt : String) : String × Digest :=
  (salt, Digest.pbkdf2 password salt ITERATIONS)

/-- `hmac.compare_digest`: constant-time digest comparison.  The timing
behaviour is outside a functional model; the comparison result is equality. -/
def compare_digest (a b : Digest) : Bool :=
  a == b

/-- case_manager.py `_verify_password`: recompute the PBKDF2 digest from the
stored salt and compare it to the stored digest in constant time. -/
def verify_password (password : String) (blob : PasswordBlob) : Bool :=
  compare_digest (hash_password password blob.hex_salt).2 blob.hex_hash

/-- Python `str.lower` (character-wise lower-casing). -/
def toLowerStr (s : String) : String :=
  ⟨s.data.map Char.toLower⟩

/-- Python `str.strip` (drop leading and trailing whitespace). -/
def trimStr (s : String) : String :=
  ⟨((s.data.dropWhile Char.isWhitespace).reverse.dropWhile Char.isWhitespace).reverse⟩

/-- case_manager.py `_username_to_lookup_hash`: SHA-256 hex of the trimmed,
lower-cased username. -/
def username_to_lookup_hash (username : String) : Digest :=
  Digest.sha256 (toLowerStr (trimStr username))

/-- case_manager.py `register_user`: role validation, duplicate-username check
against the lookup hash, then `create_user` plus a credentials row holding the
salted PBKDF2 blob. -/
def register_user (username password role : String) (display_name : Option String)
    (salt : String) (now : Nat) (db : DB) : Except Err (UserRow × DB) :=
  if ¬ (role = "patient" ∨ role = "professional") then
    Except.error (Err.valueError "Invalid role")
  else if (get_user_by_identifier db (username_to_lookup_hash username)).isSome then
    Except.error (Err.valueError "already registered")
  else
    match create_user role (display_name.getD username)
        (username_to_lookup_hash username) now db with
    | Except.error e => Except.error e
    | Except.ok (row, db1) =>
      Except.ok (row,
        { db1 with credentials := db1.credentials ++
            [{ user_id := row.id,
               password_blob := { hex_salt := (hash_password password salt).1,
                                  hex_hash := (hash_password password salt).2 } }] })

/-- case_manager.py `authenticate_user`: lookup by hashed username (miss ⇒
`None`, no audit row is written); then verify the credentials blob — a missing
blob or digest mismatch appends `login_failure` and yields `None`; a match
appends `login_success` and yields the user. -/
def authenticate_user (username password : String) (now : Nat) (db : DB) :
    Option UserRow × DB :=
  match get_user_by_identifier db (username_to_lookup_hash username) with
  | none => (none, db)
  | some user_row =>
    match findCred db user_row.id with
    | none => (none, append_audit user_row.id "login_failure" none now db)
    | some cred =>
      if verify_password password cred.password_blob then
        (some user_row, append_audit user_row.id "login_success" none now db)
      else
        (none, append_audit user_row.id "login_failure" none now db)

/-- case_manager.py `get_user_by_username`: lookup with no password check. -/
def get_user_by_username (username : String) (db : DB) : Option UserRow :=
  get_user_by_identifier db (username_to_lookup_hash username)

/-- case_manager.py `read_case_payload`: delegate to the store's access-checked
read (re-validation of the decrypted dict into a `CasePayload` model is the
identity on payloads produced by this system). -/
def read_case_payload (key : Nat) (case_id : Nat) (requester : UserRow)
    (now : Nat) (db : DB) : Except CryptoErr (Option Json) × DB :=
  get_case_payload key case_id requester now db

/-- case_manager.py `share_case_with_provider`: resolve the provider username
(no user ⇒ `None`); raise `ValueError` if the resolved user is not a
professional; re-verify ownership independently and raise `PermissionError`
on mismatch; otherwise delegate to `share_case`. -/
def share_case_with_provider (case_id : Nat) (patient : UserRow)
    (provider_username : String) (consent_scope : String) (now : Nat) (db : DB) :
    Except Err (Option ShareRow × DB) :=
  match get_user_by_username provider_username db with
  | none => Except.ok (none, db)
  | some provider =>
    if provider.role ≠ "professional" then
      Except.error (Err.valueError "is not a professional")
    else
      match findCase db case_id with
      | none => Except.error (Err.permissionError "Patient does not own this case.")
      | some row =>
        if row.patient_user_id ≠ patient.id then
          Except.error (Err.permissionError "Patient does not own this case.")
        else
          match share_case case_id patient.id provider.id consent_scope now db with
          | Except.error e => Except.error e
          | Except.ok (s, db1) => Except.ok (some s, db1)

/-- case_manager.py `get_shares_for_case`: share rows for a case joined with
the provider display name, newest-shared first (timestamps are monotone in
insertion order, so newest-first is the reversed insertion order). -/
def get_shares_for_case (case_id : Nat) (db : DB) : List (ShareRow × Option String) :=
  ((db.shares.filter (fun s => s.case_id == case_id)).reverse).map
    (fun s => (s, (findUser db s.provider_user_id).map (fun u => u.display_name)))

/-- export.py static legal disclaimer text. -/
def DISCLAIMER : String :=
  "This document is generated for local demo purposes only. It is NOT a legally valid health record and must NOT be used as a substitute for professional medical advice."

/-- The assembled export document of export.py `_build_export_bundle`. -/
structure ExportBundle where
  export_generated_at : Nat
  case_id : Nat
  case_status : String
  case_triage_level : Option String
  case_specialty_category : Option String
  case_confidence_level : Option String
  case_created_at : Nat
  case_patient_user_id : Nat
  payload : Json
  shares : List (Option String × String × Nat)
  disclaimer : String

/-- export.py `_build_export_bundle`: fetch the case row (absent ⇒ `None`),
run the consent-gated payload read (its audit side effects included), fetch
the non-PHI share list, and assemble the bundle. -/
def build_export_bundle (key : Nat) (case_id : Nat) (requester : UserRow)
    (now : Nat) (db : DB) : Except CryptoErr (Option ExportBundle) × DB :=
  match findCase db case_id with
  | none => (Except.ok none, db)
  | some case_row =>
    match get_case_payload key case_id requester now db with
    | (Except.error e, db1) => (Except.error e, db1)
    | (Except.ok none, db1) => (Except.ok none, db1)
    | (Except.ok (some payload_dict), db1) =>
      (Except.ok (some
        { export_generated_at := now,
          case_id := case_row.id,
          case_status := case_row.status,
          case_triage_level := case_row.triage_level,
          case_specialty_category := case_row.specialty_category,
          case_confidence_level := case_row.confidence_level,
          case_created_at := case_row.created_at,
          case_patient_user_id := case_row.patient_user_id,
          payload := payload_dict,
          shares := (get_shares_for_case case_id db).map
            (fun p => (p.2, p.1.consent_scope, p.1.created_at)),
          disclaimer := DISCLAIMER }), db1)

/-- export.py `export_json`: serialise the bundle (JSON text modelled by the
bundle itself; serialisation is injective) and append an `export_json` audit
entry on success only. -/
def export_json (key : Nat) (case_id : Nat) (requester : UserRow) (now : Nat)
    (db : DB) : Except CryptoErr (Option ExportBundle) × DB :=
  match build_export_bundle key case_id requester now db with
  | (Except.error e, db1) => (Except.error e, db1)
  | (Except.ok none, db1) => (Except.ok none, db1)
  | (Except.ok (some bundle), db1) =>
    (Except.ok (some bundle), append_audit requester.id "export_json" (some case_id) now db1)

/-- export.py `export_pdf`: render the bundle through the opaque reportlab
renderer (the produced bytes are modelled by the bundle they render) and
append an `export_pdf` audit entry on success only. -/
def export_pdf (key : Nat) (case_id : Nat) (requester : UserRow) (now : Nat)
    (db : DB) : Except CryptoErr (Option ExportBundle) × DB :=
  match build_export_bundle key case_id requester now db with
  | (Except.error e, db1) => (Except.error e, db1)
  | (Except.ok none, db1) => (Except.ok none, db1)
  | (Except.ok (some bundle), db1) =>
    (Except.ok (some bundle), append_audit requester.id "export_pdf" (some case_id) now db1)

/-- Concrete clinical payload used by the witness states. -/
def payloadDoc : Json :=
  Json.obj [("summary", Json.str "Mild cough"), ("triage_level", Json.str "routine")]

/-- Witness state: a registered patient. -/
def alice : UserRow :=
  { id := 1, role := "patient", display_name := "alice",
    identifier_hash := username_to_lookup_hash "alice", created_at := 0 }

/-- Witness state: a registered professional. -/
def drbob : UserRow :=
  { id := 2, role := "professional", display_name := "drbob",
    identifier_hash := username_to_lookup_hash "drbob", created_at := 0 }

/-- Witness state: a second registered patient (not the case owner). -/
def carol : UserRow :=
  { id := 3, role := "patient", display_name := "carol",
    identifier_hash := username_to_lookup_hash "carol", created_at := 0 }

/-- Witness state: an open case owned by `alice`. -/
def case1 : CaseRow :=
  { id := 1, patient_user_id := 1, created_at := 1, status := "open",
    triage_level := some "routine", specialty_category := none, confidence_level := none }

/-- Witness state: the stored credentials blob for alice (salt "s1", password "pw1"). -/
def aliceBlob : PasswordBlob :=
  { hex_salt := "s1", hex_hash := Digest.pbkdf2 "pw1" "s1" ITERATIONS }

/-- Witness state: three users, one open case owned by `alice` with its
encrypted payload, no shares, `alice` holding a credentials row. -/
def db0 : DB :=
  { users := [alice, drbob, carol],
    cases := [case1],
    case_payloads := [{ case_id := 1, encrypted_blob := encrypt_json 0 payloadDoc }],
    shares := [],
    audit_log := [],
    credentials := [{ user_id := 1, password_blob := aliceBlob }],
    next_user_id := 4, next_case_id := 2, next_share_id := 1, next_audit_id := 1 }

/-- If a function preserves a predicate pointwise, `find?` commutes with
mapping it over the list. -/
theorem find_map_of_pres {α : Type} (f : α → α) (p : α → Bool)
    (hp : ∀ x, p (f x) = p x) (l : List α) :
    (l.map f).find? p = (l.find? p).map f := by
  induction l with
  | nil => rfl
  | cons a l ih =>
    by_cases h : p a
    · simp [List.find?_cons, hp, h]
    · simp only [List.map_cons, List.find?_cons, hp a, h]
      exact ih

/-- A list on which `find?` misses filters to the empty list. -/
theorem filter_eq_nil_of_find_none {α : Type} (p : α → Bool) (l : List α)
    (h : l.find? p = none) : l.filter p = [] := by
  rw [List.filter_eq_nil_iff]
  intro a ha
  simpa using List.find?_eq_none.mp h a ha

/-- C3: for every JSON-serialisable document `d`, decrypting the encryption of
`d` under the same process key returns `d` (round-trip identity). -/
theorem C3_encrypt_decrypt_roundtrip (key : Nat) (d : Json) :
    decrypt_json key (encrypt_json key d) = Except.ok d := by
  simp [decrypt_json, encrypt_json]

/-- C4: decrypting a token produced under a different key, or any malformed or
tampered token, fails with the `InvalidToken` kind and never returns a value. -/
theorem C4_decrypt_foreign_or_tampered_fails (key k : Nat) (d : Json) (noise : Nat)
    (hk : k ≠ key) :
    decrypt_json key (encrypt_json k d) = Except.error CryptoErr.invalidToken ∧
    decrypt_json key (Token.garbled noise) = Except.error CryptoErr.invalidToken := by
  refine ⟨?_, rfl⟩
  simp [decrypt_json, encrypt_json, hk]

/-- Witness for C4 at keys 0 ≠ 1. -/
theorem C4_witness :
    (1 : Nat) ≠ 0 ∧
    (decrypt_json 0 (encrypt_json 1 Json.null) = Except.error CryptoErr.invalidToken ∧
     decrypt_json 0 (Token.garbled 7) = Except.error CryptoErr.invalidToken) :=
  ⟨by decide, C4_decrypt_foreign_or_tampered_fails 0 1 Json.null 7 (by decide)⟩

/-- C1: for a requester who is neither the owning patient of an existing case
nor a professional with a share row for it, `get_case_payload` returns absent
without raising and appends an `unauthorized_payload_access` audit entry; the
returned value is identical to the one for a non-existent case; and the owning
patient always receives the decrypted payload. -/
theorem C1_payload_read_access_control
    (key now : Nat) (u : UserRow) (db : DB) (c : CaseRow) (cid : Nat)
    (dbm : DB) (cidm : Nat)
    (dbo : DB) (co : CaseRow) (cido : Nat) (d : Json) (uo : UserRow)
    (hc : findCase db cid = some c)
    (hnotowner : c.patient_user_id ≠ u.id)
    (hnoshare : ¬ (u.role = "professional" ∧ (findShare db cid u.id).isSome))
    (hmiss : findCase dbm cidm = none)
    (hoc : findCase dbo cido = some co)
    (hown : co.patient_user_id = uo.id)
    (hop : findPayload dbo cido =
      some { case_id := cido, encrypted_blob := encrypt_json key d }) :
    (get_case_payload key cid u now db).1 = Except.ok none ∧
    (get_case_payload key cid u now db).2 =
      append_audit u.id "unauthorized_payload_access" (some cid) now db ∧
    (get_case_payload key cidm u now dbm).1 = Except.ok none ∧
    (get_case_payload key cido uo now dbo).1 = Except.ok (some d) := by
  have howner : (c.patient_user_id == u.id) = false := beq_eq_false_iff_ne.mpr hnotowner
  have hcons : (u.role == "professional" && (findShare db cid u.id).isSome) = false := by
    by_cases hr : u.role = "professional"
    · have hs : (findShare db cid u.id).isSome = false := by
        cases h : (findShare db cid u.id).isSome
        · rfl
        · exact absurd ⟨hr, h⟩ hnoshare
      simp [hs]
    · simp [beq_eq_false_iff_ne.mpr hr]
  refine ⟨?_, ?_, ?_, ?_⟩
  · simp [get_case_payload, hc, howner, hcons]
  · simp [get_case_payload, hc, howner, hcons]
  · simp [get_case_payload, hmiss]
  · simp [get_case_payload, hoc, hown, hop, decrypt_json, encrypt_json]

/-- Witness for C1: professional drbob with no share is denied on case 1 of
`db0` with an audit entry, gets the same absent value as for missing case 99,
and owner alice reads the payload. -/
theorem C1_witness :
    findCase db0 1 = some case1 ∧
    ((get_case_payload 0 1 drbob 5 db0).1 = Except.ok none ∧
     (get_case_payload 0 1 drbob 5 db0).2 =
       append_audit drbob.id "unauthorized_payload_access" (some 1) 5 db0 ∧
     (get_case_payload 0 99 drbob 5 db0).1 = Except.ok none ∧
     (get_case_payload 0 1 alice 5 db0).1 = Except.ok (some payloadDoc)) :=
  ⟨by decide,
   C1_payload_read_access_control 0 5 drbob db0 case1 1 db0 99 db0 case1 1 payloadDoc alice
     (by decide) (by decide) (by decide) (by decide) (by decide) (by decide) (by rfl)⟩

/-- The status-promotion UPDATE never changes a case id. -/
theorem promoteStatus_id (case_id : Nat) (c : CaseRow) :
    (promoteStatus case_id c).id = c.id := by
  unfold promoteStatus
  split <;> rfl

/-- The status-promotion UPDATE never changes the owning patient. -/
theorem promoteStatus_patient (case_id : Nat) (c : CaseRow) :
    (promoteStatus case_id c).patient_user_id = c.patient_user_id := by
  unfold promoteStatus
  split <;> rfl

/-- Looking a case up by id commutes with the status-promotion UPDATE. -/
theorem findCase_map_promote (case_id cid2 : Nat) (l : List CaseRow) :
    (l.map (promoteStatus case_id)).find? (fun c => c.id == cid2) =
      (l.find? (fun c => c.id == cid2)).map (promoteStatus case_id) :=
  find_map_of_pres _ _ (fun x => by simp [promoteStatus_id]) l

/-- Decision of whether a store call raised. -/
def isOk {α : Type} : Except Err α → Bool
  | Except.ok _ => true
  | Except.error _ => false

/-- The state after a store share call: the new state on success, the rolled
back (unchanged) state on a raised exception. -/
def resultDB : Except Err (ShareRow × DB) → DB → DB
  | Except.ok (_, db1), _ => db1
  | Except.error _, db => db

/-- `share_case` takes its success path when the scope is valid, the foreign
keys resolve, and no share row exists for the (case, provider) pair. -/
theorem share_case_eq_ok (case_id p pv : Nat) (sc : String) (now : Nat) (db : DB)
    (hs : sc = "read" ∨ sc = "comment" ∨ sc = "full")
    (hfk : ¬ ((findCase db case_id).isNone ∨ (findUser db p).isNone ∨ (findUser db pv).isNone))
    (hdup : findShare db case_id pv = none) :
    share_case case_id p pv sc now db = Except.ok (share_insert case_id p pv sc now db) := by
  unfold share_case
  rw [if_neg (not_not_intro hs), if_neg hfk, if_neg (by simp [hdup])]

/-- `share_case` raises the uniqueness violation when a share row already
exists for the (case, provider) pair. -/
theorem share_case_eq_dup_error (case_id p pv : Nat) (sc : String) (now : Nat) (db : DB)
    (hs : sc = "read" ∨ sc = "comment" ∨ sc = "full")
    (hfk : ¬ ((findCase db case_id).isNone ∨ (findUser db p).isNone ∨ (findUser db pv).isNone))
    (hdup : (findShare db case_id pv).isSome) :
    share_case case_id p pv sc now db =
      Except.error (Err.integrityError "UNIQUE constraint failed") := by
  unfold share_case
  rw [if_neg (not_not_intro hs), if_neg hfk, if_pos hdup]

/-- Inversion: a successful `share_case` call passed all three checks and
produced exactly the success-path insertion. -/
theorem share_case_ok_inv (case_id p pv : Nat) (sc : String) (now : Nat) (db : DB)
    (sr : ShareRow) (db1 : DB)
    (h : share_case case_id p pv sc now db = Except.ok (sr, db1)) :
    (sc = "read" ∨ sc = "comment" ∨ sc = "full") ∧
    ¬ ((findCase db case_id).isNone ∨ (findUser db p).isNone ∨ (findUser db pv).isNone) ∧
    findShare db case_id pv = none ∧
    (sr, db1) = share_insert case_id p pv sc now db := by
  unfold share_case at h
  by_cases h1 : ¬ (sc = "read" ∨ sc = "comment" ∨ sc = "full")
  · rw [if_pos h1] at h
    simp at h
  rw [if_neg h1] at h
  by_cases h2 : (findCase db case_id).isNone ∨ (findUser db p).isNone ∨ (findUser db pv).isNone
  · rw [if_pos h2] at h
    simp at h
  rw [if_neg h2] at h
  by_cases h3 : ((findShare db case_id pv).isSome : Prop)
  · rw [if_pos h3] at h
    simp at h
  rw [if_neg h3] at h
  refine ⟨not_not.mp h1, h2, Option.not_isSome_iff_eq_none.mp h3, ?_⟩
  exact (Except.ok.inj h).symm

/-- C10: the store-level `share_case` performs no ownership or role check: for
an existing case and existing users p and q with a valid scope and no existing
share, it succeeds and inserts the share row even when p is not the owning
patient and q is not a professional. -/
theorem C10_share_case_no_ownership_or_role_check
    (cid now : Nat) (sc : String) (db : DB) (c : CaseRow) (p q : UserRow)
    (hs : sc = "read" ∨ sc = "comment" ∨ sc = "full")
    (hc : findCase db cid = some c)
    (hp : findUser db p.id = some p)
    (hq : findUser db q.id = some q)
    (hnos : findShare db cid q.id = none)
    (hnotowner : c.patient_user_id ≠ p.id)
    (hnotprof : q.role ≠ "professional") :
    isOk (share_case cid p.id q.id sc now db) = true ∧
    (share_case cid p.id q.id sc now db).toOption.map Prod.fst =
      some { id := db.next_share_id, case_id := cid, patient_user_id := p.id,
             provider_user_id := q.id, consent_scope := sc, created_at := now } ∧
    shareCount (resultDB (share_case cid p.id q.id sc now db) db) cid q.id = 1 := by
  have hfk : ¬ ((findCase db cid).isNone ∨ (findUser db p.id).isNone ∨
      (findUser db q.id).isNone) := by
    simp [hc, hp, hq]
  have hfil : db.shares.filter (fun s => s.case_id == cid && s.provider_user_id == q.id) = [] :=
    filter_eq_nil_of_find_none _ _ hnos
  rw [share_case_eq_ok cid p.id q.id sc now db hs hfk hnos]
  refine ⟨rfl, rfl, ?_⟩
  show ((db.shares ++ [(share_insert cid p.id q.id sc now db).1]).filter
    (fun s => s.case_id == cid && s.provider_user_id == q.id)).length = 1
  rw [List.filter_append, hfil]
  simp [share_insert]

/-- Witness for C10: in `db0`, patient drbob (not the owner of case 1) shares
case 1 with patient carol (not a professional); the store accepts it. -/
theorem C10_witness :
    ("read" = "read" ∨ "read" = "comment" ∨ "read" = "full") ∧
    (isOk (share_case 1 drbob.id carol.id "read" 9 db0) = true ∧
     (share_case 1 drbob.id carol.id "read" 9 db0).toOption.map Prod.fst =
       some { id := db0.next_share_id, case_id := 1, patient_user_id := drbob.id,
              provider_user_id := carol.id, consent_scope := "read", created_at := 9 } ∧
     shareCount (resultDB (share_case 1 drbob.id carol.id "read" 9 db0) db0) 1 carol.id = 1) :=
  ⟨Or.inl rfl,
   C10_share_case_no_ownership_or_role_check 1 9 "read" db0 case1 drbob carol
     (Or.inl rfl) (by decide) (by decide) (by decide) (by decide) (by decide) (by decide)⟩

/-- C5: after a successful share, a second `share_case` for the same
(case, provider) pair fails with the integrity/already-exists error, exactly
one share row exists for the pair, and the at-most-one-share-per-pair
invariant is preserved for every pair. -/
theorem C5_at_most_one_share_per_pair
    (cid p pv now1 now2 cid2 pv2 : Nat) (s1 s2 : String) (db db1 : DB) (sr : ShareRow)
    (hfirst : share_case cid p pv s1 now1 db = Except.ok (sr, db1))
    (hs2 : s2 = "read" ∨ s2 = "comment" ∨ s2 = "full")
    (hinv : ∀ a b : Nat, shareCount db a b ≤ 1) :
    share_case cid p pv s2 now2 db1 =
      Except.error (Err.integrityError "UNIQUE constraint failed") ∧
    shareCount db1 cid pv = 1 ∧
    shareCount db1 cid2 pv2 ≤ 1 := by
  obtain ⟨hs1, hfk, hdup, heq⟩ := share_case_ok_inv cid p pv s1 now1 db sr db1 hfirst
  have hdb1 : db1 = (share_insert cid p pv s1 now1 db).2 := congrArg Prod.snd heq
  subst hdb1
  have hrow : (share_insert cid p pv s1 now1 db).1 =
      { id := db.next_share_id, case_id := cid, patient_user_id := p,
        provider_user_id := pv, consent_scope := s1, created_at := now1 } := rfl
  have hshares : (share_insert cid p pv s1 now1 db).2.shares =
      db.shares ++ [(share_insert cid p pv s1 now1 db).1] := rfl
  have hfil : db.shares.filter (fun s => s.case_id == cid && s.provider_user_id == pv) = [] :=
    filter_eq_nil_of_find_none _ _ hdup
  push_neg at hfk
  obtain ⟨hcn, hpn, hpvn⟩ := hfk
  have hcs : ∃ c, findCase db cid = some c := by
    cases hcase : findCase db cid with
    | none => exact absurd (by rw [hcase]; rfl) hcn
    | some c => exact ⟨c, rfl⟩
  obtain ⟨c, hc⟩ := hcs
  refine ⟨?_, ?_, ?_⟩
  · -- the second call hits the UNIQUE constraint
    apply share_case_eq_dup_error _ _ _ _ _ _ hs2
    · -- foreign keys still resolve in the post-share state
      push_neg
      refine ⟨?_, hpn, hpvn⟩
      show ((db.cases.map (promoteStatus cid)).find? (fun x => x.id == cid)).isNone ≠ true
      rw [findCase_map_promote]
      show ((findCase db cid).map (promoteStatus cid)).isNone ≠ true
      rw [hc]
      simp
    · -- the first share row is found
      show ((db.shares ++ [(share_insert cid p pv s1 now1 db).1]).find?
        (fun s => s.case_id == cid && s.provider_user_id == pv)).isSome
      rw [List.find?_append,
        show List.find? (fun s => s.case_id == cid && s.provider_user_id == pv) db.shares =
          none from hdup, hrow]
      simp [List.find?]
  · -- exactly one share row for the pair
    show ((db.shares ++ [(share_insert cid p pv s1 now1 db).1]).filter
      (fun s => s.case_id == cid && s.provider_user_id == pv)).length = 1
    rw [List.filter_append, hfil, hrow]
    simp [List.filter_cons]
  · -- every pair still has at most one share row
    show ((db.shares ++ [(share_insert cid p pv s1 now1 db).1]).filter
      (fun s => s.case_id == cid2 && s.provider_user_id == pv2)).length ≤ 1
    rw [List.filter_append]
    by_cases hm : (cid = cid2 ∧ pv = pv2)
    · obtain ⟨h1, h2⟩ := hm
      subst h1
      subst h2
      rw [hfil, hrow]
      simp [List.filter_cons]
    · have hone : ([(share_insert cid p pv s1 now1 db).1].filter
          (fun s => s.case_id == cid2 && s.provider_user_id == pv2)) = [] := by
        rw [hrow]
        rw [not_and_or] at hm
        rcases hm with h | h <;> simp [List.filter_cons, h]
      rw [hone]
      simpa using hinv cid2 pv2

/-- Witness state: `db0` after alice shares case 1 with drbob (scope read). -/
def share0 : ShareRow :=
  { id := 1, case_id := 1, patient_user_id := 1, provider_user_id := 2,
    consent_scope := "read", created_at := 10 }

/-- Witness state: the post-share database produced from `db0`. -/
def db0s : DB :=
  { db0 with
      shares := [share0],
      next_share_id := 2,
      cases := [{ case1 with status := "shared" }],
      audit_log := [{ id := 1, user_id := 1, action := "case_shared",
                      case_id := some 1, timestamp := 10 }],
      next_audit_id := 2 }

/-- Witness for C5: sharing case 1 with drbob twice on `db0`. -/
theorem C5_witness :
    share_case 1 1 2 "read" 10 db0 = Except.ok (share0, db0s) ∧
    ("full" = "read" ∨ "full" = "comment" ∨ "full" = "full") ∧
    (∀ a b : Nat, shareCount db0 a b ≤ 1) ∧
    (share_case 1 1 2 "full" 11 db0s =
       Except.error (Err.integrityError "UNIQUE constraint failed") ∧
     shareCount db0s 1 2 = 1 ∧
     shareCount db0s 5 7 ≤ 1) :=
  ⟨rfl, Or.inr (Or.inr rfl), fun a b => by simp [shareCount, db0],
   C5_at_most_one_share_per_pair 1 1 2 10 11 5 7 "read" "full" db0 db0s share0
     rfl (Or.inr (Or.inr rfl)) (fun a b => by simp [shareCount, db0])⟩

/-- C2: after a successful `share_case_with_provider` for a case created by a
patient, the previously denied professional reads the same payload the patient
reads, and the case status equals "shared". -/
theorem C2_share_then_read_succeeds
    (key now0 now1 now2 now3 cid : Nat) (db db1 : DB) (u q : UserRow)
    (uname sc : String) (c : CaseRow) (d : Json) (sr : ShareRow)
    (hresolve : get_user_by_username uname db = some q)
    (hqprof : q.role = "professional")
    (hc : findCase db cid = some c)
    (hown : c.patient_user_id = u.id)
    (hstatus : c.status = "open" ∨ c.status = "shared")
    (hpay : findPayload db cid = some { case_id := cid, encrypted_blob := encrypt_json key d })
    (hprev : (read_case_payload key cid q now0 db).1 = Except.ok none)
    (hnoshare : findShare db cid q.id = none)
    (hufk : findUser db u.id = some u)
    (hqfk : findUser db q.id = some q)
    (hshare : share_case_with_provider cid u uname sc now1 db = Except.ok (some sr, db1)) :
    (read_case_payload key cid q now2 db1).1 = Except.ok (some d) ∧
    (read_case_payload key cid u now3 db1).1 = Except.ok (some d) ∧
    (findCase db1 cid).map (fun x => x.status) = some "shared" := by
  -- invert the service call down to the store-level share
  have hshare2 : share_case cid u.id q.id sc now1 db = Except.ok (sr, db1) := by
    have h := hshare
    simp only [share_case_with_provider, hresolve] at h
    rw [if_neg (by simp [hqprof])] at h
    simp only [hc] at h
    rw [if_neg (by simp [hown])] at h
    revert h
    cases hsc2 : share_case cid u.id q.id sc now1 db with
    | error e =>
      intro h
      simp at h
    | ok pr =>
      obtain ⟨s0, db10⟩ := pr
      intro h
      simp only [Except.ok.injEq, Prod.mk.injEq, Option.some.injEq] at h
      rw [h.1, h.2]
  obtain ⟨hs1, hfk, hdup, heq⟩ := share_case_ok_inv cid u.id q.id sc now1 db sr db1 hshare2
  have hdb1 : db1 = (share_insert cid u.id q.id sc now1 db).2 := congrArg Prod.snd heq
  subst hdb1
  have hcid : (c.id == cid) = true := by
    have hc2 : db.cases.find? (fun x => x.id == cid) = some c := hc
    simpa using List.find?_some hc2
  have hrow : (share_insert cid u.id q.id sc now1 db).1 =
      { id := db.next_share_id, case_id := cid, patient_user_id := u.id,
        provider_user_id := q.id, consent_scope := sc, created_at := now1 } := rfl
  have hfc1 : findCase (share_insert cid u.id q.id sc now1 db).2 cid =
      some (promoteStatus cid c) := by
    show (db.cases.map (promoteStatus cid)).find? (fun x => x.id == cid) = _
    rw [findCase_map_promote]
    show (findCase db cid).map (promoteStatus cid) = _
    rw [hc]
    rfl
  have hps : (promoteStatus cid c).status = "shared" := by
    unfold promoteStatus
    rcases hstatus with h | h
    · rw [if_pos (by simp [hcid, h])]
    · rw [if_neg (by simp [h])]
      exact h
  have hfp1 : findPayload (share_insert cid u.id q.id sc now1 db).2 cid =
      some { case_id := cid, encrypted_blob := encrypt_json key d } := hpay
  have hfs1 : findShare (share_insert cid u.id q.id sc now1 db).2 cid q.id =
      some (share_insert cid u.id q.id sc now1 db).1 := by
    show (db.shares ++ [(share_insert cid u.id q.id sc now1 db).1]).find?
      (fun s => s.case_id == cid && s.provider_user_id == q.id) = _
    rw [List.find?_append,
      show List.find? (fun s => s.case_id == cid && s.provider_user_id == q.id) db.shares =
        none from hnoshare, hrow]
    simp [List.find?]
  refine ⟨?_, ?_, ?_⟩
  · -- the professional now reads the payload
    show (get_case_payload key cid q now2 (share_insert cid u.id q.id sc now1 db).2).1 =
      Except.ok (some d)
    simp [get_case_payload, hfc1, hqprof, hfs1, hfp1, decrypt_json, encrypt_json]
  · -- the patient reads the same payload
    show (get_case_payload key cid u now3 (share_insert cid u.id q.id sc now1 db).2).1 =
      Except.ok (some d)
    have howner : ((promoteStatus cid c).patient_user_id == u.id) = true := by
      rw [promoteStatus_patient, hown]
      simp
    simp [get_case_payload, hfc1, howner, hfp1, decrypt_json, encrypt_json]
  · rw [hfc1]
    simp [hps]

/-- Witness for C2: alice shares case 1 of `db0` with drbob; drbob (previously
denied) and alice both read `payloadDoc`, and the case status is "shared". -/
theorem C2_witness :
    share_case_with_provider 1 alice "drbob" "read" 10 db0 = Except.ok (some share0, db0s) ∧
    ((read_case_payload 0 1 drbob 11 db0s).1 = Except.ok (some payloadDoc) ∧
     (read_case_payload 0 1 alice 12 db0s).1 = Except.ok (some payloadDoc) ∧
     (findCase db0s 1).map (fun x => x.status) = some "shared") :=
  ⟨rfl,
   C2_share_then_read_succeeds 0 4 10 11 12 1 db0 db0s alice drbob "drbob" "read"
     case1 payloadDoc share0 rfl rfl (by decide) rfl (Or.inl rfl) rfl rfl rfl rfl rfl rfl⟩

/-- Counterexample for C6: authenticating an unregistered username returns
absent but writes no `login_failure` audit row — the state is unchanged —
contradicting the claim that a username-lookup miss logs `login_failure`. -/
theorem C6_counterexample :
    (authenticate_user "ghost" "pw" 5 db0).1 = none ∧
    (authenticate_user "ghost" "pw" 5 db0).2 = db0 ∧
    auditCount (authenticate_user "ghost" "pw" 5 db0).2 "login_failure" = 0 :=
  ⟨rfl, rfl, rfl⟩

/-- C6 (amended): a username-lookup miss returns absent with the state
unchanged (no audit row); for a registered user with stored credentials, a
wrong password returns absent and appends `login_failure`, and the correct
password returns the user and appends `login_success` (the digest comparison
is delegated to the constant-time primitive `compare_digest`). -/
theorem C6_authenticate_behaviour
    (now1 now2 now3 : Nat) (dbm : DB) (um pm : String)
    (db : DB) (u : UserRow) (uname correct wrong salt : String) (cred : CredRow)
    (hmiss : get_user_by_identifier dbm (username_to_lookup_hash um) = none)
    (hu : get_user_by_identifier db (username_to_lookup_hash uname) = some u)
    (hcred : findCred db u.id = some cred)
    (hblob : cred.password_blob =
      { hex_salt := salt, hex_hash := Digest.pbkdf2 correct salt ITERATIONS })
    (hwrong : wrong ≠ correct) :
    authenticate_user um pm now1 dbm = (none, dbm) ∧
    ((authenticate_user uname wrong now2 db).1 = none ∧
     (authenticate_user uname wrong now2 db).2 =
       append_audit u.id "login_failure" none now2 db) ∧
    ((authenticate_user uname correct now3 db).1 = some u ∧
     (authenticate_user uname correct now3 db).2 =
       append_audit u.id "login_success" none now3 db) := by
  have hver_wrong : verify_password wrong cred.password_blob = false := by
    rw [hblob]
    simp [verify_password, compare_digest, hash_password, ITERATIONS, hwrong]
  have hver_right : verify_password correct cred.password_blob = true := by
    rw [hblob]
    simp [verify_password, compare_digest, hash_password]
  refine ⟨?_, ⟨?_, ?_⟩, ⟨?_, ?_⟩⟩
  · simp [authenticate_user, hmiss]
  · simp [authenticate_user, hu, hcred, hver_wrong]
  · simp [authenticate_user, hu, hcred, hver_wrong]
  · simp [authenticate_user, hu, hcred, hver_right]
  · simp [authenticate_user, hu, hcred, hver_right]

/-- Witness for C6 (amended): the username "ghost" misses on `db0`; alice with
password "bad" fails and logs `login_failure`; alice with "pw1" succeeds and
logs `login_success`. -/
theorem C6_witness :
    get_user_by_identifier db0 (username_to_lookup_hash "ghost") = none ∧
    (authenticate_user "ghost" "x" 5 db0 = (none, db0) ∧
     ((authenticate_user "alice" "bad" 6 db0).1 = none ∧
      (authenticate_user "alice" "bad" 6 db0).2 =
        append_audit alice.id "login_failure" none 6 db0) ∧
     ((authenticate_user "alice" "pw1" 7 db0).1 = some alice ∧
      (authenticate_user "alice" "pw1" 7 db0).2 =
        append_audit alice.id "login_success" none 7 db0)) :=
  ⟨by decide,
   C6_authenticate_behaviour 5 6 7 db0 "ghost" "x" db0 alice "alice" "pw1" "bad" "s1"
     { user_id := 1, password_blob := aliceBlob }
     (by decide) (by decide) (by decide) (by decide) (by decide)⟩

/-- Decision of whether a service-layer result is the permission-error kind. -/
def isPermissionError {α : Type} : Except Err α → Bool
  | Except.error (Err.permissionError _) => true
  | _ => false

/-- Decision of whether `share_case_with_provider` returned the absent result. -/
def returnsAbsent : Except Err (Option ShareRow × DB) → Bool
  | Except.ok (none, _) => true
  | _ => false

/-- Counterexample for C7: sharing case 1 of `db0` with carol — a registered
user whose role is patient, not professional — raises the validation-error
kind (`ValueError`), not the permission-error kind the claim requires. -/
theorem C7_counterexample :
    share_case_with_provider 1 alice "carol" "read" 5 db0 =
      Except.error (Err.valueError "is not a professional") ∧
    isPermissionError (share_case_with_provider 1 alice "carol" "read" 5 db0) = false :=
  ⟨rfl, rfl⟩

/-- C7 (amended): `share_case_with_provider` fails with the validation-error
kind (`ValueError`) when the resolved provider is not a professional, with the
permission-error kind when the case is missing or not owned by the calling
patient, and returns the absent result exactly when the provider username
resolves to no user. -/
theorem C7_share_error_kinds
    (cid1 now1 : Nat) (db1x : DB) (u1 q1 : UserRow) (un1 sc1 : String)
    (cid2 now2 : Nat) (db2x : DB) (u2 q2 : UserRow) (un2 sc2 : String)
    (cid3 now3 : Nat) (db3x : DB) (u3 q3 : UserRow) (un3 sc3 : String) (c3 : CaseRow)
    (cid4 now4 : Nat) (db4x : DB) (u4 : UserRow) (un4 sc4 : String)
    (h1a : get_user_by_username un1 db1x = some q1)
    (h1b : q1.role ≠ "professional")
    (h2a : get_user_by_username un2 db2x = some q2)
    (h2b : q2.role = "professional")
    (h2c : findCase db2x cid2 = none)
    (h3a : get_user_by_username un3 db3x = some q3)
    (h3b : q3.role = "professional")
    (h3c : findCase db3x cid3 = some c3)
    (h3d : c3.patient_user_id ≠ u3.id) :
    share_case_with_provider cid1 u1 un1 sc1 now1 db1x =
      Except.error (Err.valueError "is not a professional") ∧
    share_case_with_provider cid2 u2 un2 sc2 now2 db2x =
      Except.error (Err.permissionError "Patient does not own this case.") ∧
    share_case_with_provider cid3 u3 un3 sc3 now3 db3x =
      Except.error (Err.permissionError "Patient does not own this case.") ∧
    returnsAbsent (share_case_with_provider cid4 u4 un4 sc4 now4 db4x) =
      (get_user_by_username un4 db4x).isNone := by
  refine ⟨?_, ?_, ?_, ?_⟩
  · simp only [share_case_with_provider, h1a]
    rw [if_pos h1b]
  · simp only [share_case_with_provider, h2a]
    rw [if_neg (by simp [h2b])]
    simp only [h2c]
  · simp only [share_case_with_provider, h3a]
    rw [if_neg (by simp [h3b])]
    simp only [h3c]
    rw [if_pos h3d]
  · cases hres : get_user_by_username un4 db4x with
    | none => simp [share_case_with_provider, hres, returnsAbsent]
    | some qq =>
      simp only [share_case_with_provider, hres, Option.isNone_some]
      by_cases hrole : qq.role ≠ "professional"
      · rw [if_pos hrole]
        rfl
      · rw [if_neg hrole]
        split
        · rfl
        · split
          · rfl
          · split
            · rfl
            · rfl

/-- Witness for C7 (amended): on `db0`, sharing to patient carol raises
`ValueError`; sharing missing case 99 or a case owned by someone else to
professional drbob raises `PermissionError`; the unknown username "nobody"
yields the absent result. -/
theorem C7_witness :
    get_user_by_username "carol" db0 = some carol ∧
    (share_case_with_provider 1 alice "carol" "read" 6 db0 =
       Except.error (Err.valueError "is not a professional") ∧
     share_case_with_provider 99 alice "drbob" "read" 6 db0 =
       Except.error (Err.permissionError "Patient does not own this case.") ∧
     share_case_with_provider 1 carol "drbob" "read" 6 db0 =
       Except.error (Err.permissionError "Patient does not own this case.") ∧
     returnsAbsent (share_case_with_provider 1 alice "nobody" "read" 6 db0) =
       (get_user_by_username "nobody" db0).isNone) :=
  ⟨by decide,
   C7_share_error_kinds 1 6 db0 alice carol "carol" "read" 99 6 db0 alice drbob "drbob"
     "read" 1 6 db0 carol drbob "drbob" "read" case1 1 6 db0 alice "nobody" "read"
     (by decide) (by decide) (by decide) (by decide) (by decide) (by decide) (by decide)
     (by decide) (by decide)⟩

/-- `create_user` succeeds when the role is valid and the identifier hash is
new, inserting the user row and its `user_created` audit entry. -/
theorem create_user_eq_ok (role dn : String) (ih : Digest) (now : Nat) (db : DB)
    (hrole : role = "patient" ∨ role = "professional")
    (hnone : get_user_by_identifier db ih = none) :
    create_user role dn ih now db = Except.ok
      ({ id := db.next_user_id, role := role, display_name := dn,
         identifier_hash := ih, created_at := now },
       append_audit db.next_user_id "user_created" none now
         { db with
             users := db.users ++
               [{ id := db.next_user_id, role := role, display_name := dn,
                  identifier_hash := ih, created_at := now }],
             next_user_id := db.next_user_id + 1 }) := by
  unfold create_user
  rw [if_neg (not_not_intro hrole), if_neg (by simp [hnone])]

/-- C8: registering a username that differs from an existing registration only
in letter case or surrounding whitespace fails with the already-registered
error, and the users table still holds exactly one row for that identity. -/
theorem C8_duplicate_registration_fails
    (u1 u2 pw1 pw2 role1 role2 salt1 salt2 : String) (dn1 dn2 : Option String)
    (now1 now2 : Nat) (db db1 : DB) (r : UserRow)
    (hreg : register_user u1 pw1 role1 dn1 salt1 now1 db = Except.ok (r, db1))
    (hsame : toLowerStr (trimStr u2) = toLowerStr (trimStr u1))
    (hrole2 : role2 = "patient" ∨ role2 = "professional") :
    register_user u2 pw2 role2 dn2 salt2 now2 db1 =
      Except.error (Err.valueError "already registered") ∧
    (db1.users.filter
      (fun x => x.identifier_hash == username_to_lookup_hash u1)).length = 1 := by
  unfold register_user at hreg
  by_cases hrole1 : ¬ (role1 = "patient" ∨ role1 = "professional")
  · rw [if_pos hrole1] at hreg
    simp at hreg
  rw [if_neg hrole1] at hreg
  by_cases hdup : ((get_user_by_identifier db (username_to_lookup_hash u1)).isSome : Prop)
  · rw [if_pos hdup] at hreg
    simp at hreg
  rw [if_neg hdup] at hreg
  have hnone : get_user_by_identifier db (username_to_lookup_hash u1) = none :=
    Option.not_isSome_iff_eq_none.mp hdup
  rw [create_user_eq_ok role1 (dn1.getD u1) (username_to_lookup_hash u1) now1 db
    (not_not.mp hrole1) hnone] at hreg
  simp only [Except.ok.injEq, Prod.mk.injEq] at hreg
  obtain ⟨hr, hdb1⟩ := hreg
  have hnone2 : db.users.find?
      (fun x => x.identifier_hash == username_to_lookup_hash u1) = none := hnone
  have husers : db1.users = db.users ++
      [{ id := db.next_user_id, role := role1, display_name := dn1.getD u1,
         identifier_hash := username_to_lookup_hash u1, created_at := now1 }] := by
    rw [← hdb1]
    rfl
  have hfound : (get_user_by_identifier db1
      (username_to_lookup_hash u1)).isSome := by
    show (db1.users.find?
      (fun x => x.identifier_hash == username_to_lookup_hash u1)).isSome
    rw [husers, List.find?_append, hnone2]
    simp [List.find?]
  have hhash : username_to_lookup_hash u2 = username_to_lookup_hash u1 := by
    unfold username_to_lookup_hash
    rw [hsame]
  constructor
  · unfold register_user
    rw [if_neg (not_not_intro hrole2), hhash, if_pos hfound]
  · rw [husers, List.filter_append, filter_eq_nil_of_find_none _ _ hnone2]
    simp [List.filter_cons]

/-- Witness state: the empty database. -/
def dbEmpty : DB :=
  { users := [], cases := [], case_payloads := [], shares := [], audit_log := [],
    credentials := [], next_user_id := 1, next_case_id := 1, next_share_id := 1,
    next_audit_id := 1 }

/-- Witness state: the user row produced by registering "Alice". -/
def rA : UserRow :=
  { id := 1, role := "patient", display_name := "Alice",
    identifier_hash := username_to_lookup_hash "Alice", created_at := 20 }

/-- Witness state: the stored credentials blob written for "Alice". -/
def blobA : PasswordBlob :=
  { hex_salt := "sA", hex_hash := Digest.pbkdf2 "pwA" "sA" ITERATIONS }

/-- Witness state: the database after registering "Alice" on `dbEmpty`. -/
def dbA : DB :=
  { users := [rA], cases := [], case_payloads := [], shares := [],
    audit_log := [{ id := 1, user_id := 1, action := "user_created",
                    case_id := none, timestamp := 20 }],
    credentials := [{ user_id := 1, password_blob := blobA }],
    next_user_id := 2, next_case_id := 1, next_share_id := 1, next_audit_id := 2 }

/-- Witness for C8: registering "Alice" and then "  ALICE " (same identity up
to case and surrounding whitespace) fails the second time and leaves exactly
one matching user row. -/
theorem C8_witness :
    register_user "Alice" "pwA" "patient" none "sA" 20 dbEmpty = Except.ok (rA, dbA) ∧
    (register_user "  ALICE " "pwB" "patient" none "sB" 21 dbA =
       Except.error (Err.valueError "already registered") ∧
     (dbA.users.filter
       (fun x => x.identifier_hash == username_to_lookup_hash "Alice")).length = 1) :=
  ⟨by rfl,
   C8_duplicate_registration_fails "Alice" "  ALICE " "pwA" "pwB" "patient" "patient"
     "sA" "sB" none none 20 21 dbEmpty dbA rA (by rfl) (by decide) (Or.inl rfl)⟩

/-- Appending an audit row with a different action label leaves the count of a
label unchanged. -/
theorem auditCount_append_other (uid : Nat) (act : String) (cidq : Option Nat)
    (now : Nat) (db : DB) (a : String) (h : a ≠ act) :
    auditCount (append_audit uid act cidq now db) a = auditCount db a := by
  have hne : ¬ act = a := fun hh => h hh.symm
  unfold auditCount append_audit
  rw [List.filter_append]
  simp [List.filter_cons, hne]

/-- Appending an audit row increments the count of its own action label. -/
theorem auditCount_append_same (uid : Nat) (act : String) (cidq : Option Nat)
    (now : Nat) (db : DB) :
    auditCount (append_audit uid act cidq now db) act = auditCount db act + 1 := by
  unfold auditCount append_audit
  rw [List.filter_append]
  simp [List.filter_cons]

/-- The audit rows written by the access-checked payload read are only
`payload_read` or `unauthorized_payload_access`: counts of any other label are
unchanged by the read. -/
theorem get_case_payload_audit_other (key cid : Nat) (u : UserRow) (now : Nat)
    (db : DB) (a : String) (h1 : a ≠ "payload_read")
    (h2 : a ≠ "unauthorized_payload_access") :
    auditCount (get_case_payload key cid u now db).2 a = auditCount db a := by
  unfold get_case_payload
  split
  · rfl
  · split
    · split
      · rfl
      · split
        · exact auditCount_append_other _ _ _ _ _ _ h1
        · exact auditCount_append_other _ _ _ _ _ _ h1
    · exact auditCount_append_other _ _ _ _ _ _ h2

/-- Decision of whether an export produced a document. -/
def isSomeOk : Except CryptoErr (Option ExportBundle) → Bool
  | Except.ok (some _) => true
  | _ => false

/-- C9: when the access-checked payload read returns absent, `export_json` and
`export_pdf` return absent and append no `export_json`/`export_pdf` audit
entry; when it succeeds, each export succeeds and appends exactly one such
audit entry. -/
theorem C9_export_audit_discipline
    (key1 cid1 now1 : Nat) (db1x : DB) (u1 : UserRow)
    (key2 cid2 now2 : Nat) (db2x : DB) (u2 : UserRow) (d2 : Json)
    (h1 : (get_case_payload key1 cid1 u1 now1 db1x).1 = Except.ok none)
    (h2 : (get_case_payload key2 cid2 u2 now2 db2x).1 = Except.ok (some d2)) :
    ((export_json key1 cid1 u1 now1 db1x).1 = Except.ok none ∧
     auditCount (export_json key1 cid1 u1 now1 db1x).2 "export_json" =
       auditCount db1x "export_json" ∧
     (export_pdf key1 cid1 u1 now1 db1x).1 = Except.ok none ∧
     auditCount (export_pdf key1 cid1 u1 now1 db1x).2 "export_pdf" =
       auditCount db1x "export_pdf") ∧
    (isSomeOk (export_json key2 cid2 u2 now2 db2x).1 = true ∧
     auditCount (export_json key2 cid2 u2 now2 db2x).2 "export_json" =
       auditCount db2x "export_json" + 1 ∧
     isSomeOk (export_pdf key2 cid2 u2 now2 db2x).1 = true ∧
     auditCount (export_pdf key2 cid2 u2 now2 db2x).2 "export_pdf" =
       auditCount db2x "export_pdf" + 1) := by
  have haud1 : ∀ a : String, a ≠ "payload_read" → a ≠ "unauthorized_payload_access" →
      auditCount (get_case_payload key1 cid1 u1 now1 db1x).2 a = auditCount db1x a :=
    fun a ha hb => get_case_payload_audit_other key1 cid1 u1 now1 db1x a ha hb
  have haud2 : ∀ a : String, a ≠ "payload_read" → a ≠ "unauthorized_payload_access" →
      auditCount (get_case_payload key2 cid2 u2 now2 db2x).2 a = auditCount db2x a :=
    fun a ha hb => get_case_payload_audit_other key2 cid2 u2 now2 db2x a ha hb
  constructor
  · -- denied or missing: absent results and no export audit rows
    cases hgp1 : get_case_payload key1 cid1 u1 now1 db1x with
    | mk r1 dbr1 =>
      rw [hgp1] at h1
      rw [hgp1] at haud1
      simp at h1
      subst h1
      cases hfc1 : findCase db1x cid1 with
      | none =>
        refine ⟨?_, ?_, ?_, ?_⟩ <;>
          simp [export_json, export_pdf, build_export_bundle, hfc1]
      | some c1 =>
        have hb : build_export_bundle key1 cid1 u1 now1 db1x = (Except.ok none, dbr1) := by
          simp [build_export_bundle, hfc1, hgp1]
        refine ⟨?_, ?_, ?_, ?_⟩
        · simp [export_json, hb]
        · simp [export_json, hb]
          exact haud1 "export_json" (by decide) (by decide)
        · simp [export_pdf, hb]
        · simp [export_pdf, hb]
          exact haud1 "export_pdf" (by decide) (by decide)
  · -- authorized: export succeeds and appends exactly one audit row
    cases hgp2 : get_case_payload key2 cid2 u2 now2 db2x with
    | mk r2 dbr2 =>
      rw [hgp2] at h2
      rw [hgp2] at haud2
      simp at h2
      subst h2
      cases hfc2 : findCase db2x cid2 with
      | none =>
        exfalso
        have : get_case_payload key2 cid2 u2 now2 db2x = (Except.ok none, db2x) := by
          unfold get_case_payload
          rw [hfc2]
        rw [hgp2] at this
        simp at this
      | some c2 =>
        have hej : export_json key2 cid2 u2 now2 db2x =
            (Except.ok (some
              { export_generated_at := now2, case_id := c2.id, case_status := c2.status,
                case_triage_level := c2.triage_level,
                case_specialty_category := c2.specialty_category,
                case_confidence_level := c2.confidence_level,
                case_created_at := c2.created_at,
                case_patient_user_id := c2.patient_user_id, payload := d2,
                shares := (get_shares_for_case cid2 db2x).map
                  (fun p => (p.2, p.1.consent_scope, p.1.created_at)),
                disclaimer := DISCLAIMER }),
             append_audit u2.id "export_json" (some cid2) now2 dbr2) := by
          simp [export_json, build_export_bundle, hfc2, hgp2]
        have hep : export_pdf key2 cid2 u2 now2 db2x =
            (Except.ok (some
              { export_generated_at := now2, case_id := c2.id, case_status := c2.status,
                case_triage_level := c2.triage_level,
                case_specialty_category := c2.specialty_category,
                case_confidence_level := c2.confidence_level,
                case_created_at := c2.created_at,
                case_patient_user_id := c2.patient_user_id, payload := d2,
                shares := (get_shares_for_case cid2 db2x).map
                  (fun p => (p.2, p.1.consent_scope, p.1.created_at)),
                disclaimer := DISCLAIMER }),
             append_audit u2.id "export_pdf" (some cid2) now2 dbr2) := by
          simp [export_pdf, build_export_bundle, hfc2, hgp2]
        refine ⟨?_, ?_, ?_, ?_⟩
        · rw [hej]
          rfl
        · rw [hej]
          show auditCount (append_audit u2.id "export_json" (some cid2) now2 dbr2)
            "export_json" = auditCount db2x "export_json" + 1
          rw [auditCount_append_same]
          rw [haud2 "export_json" (by decide) (by decide)]
        · rw [hep]
          rfl
        · rw [hep]
          show auditCount (append_audit u2.id "export_pdf" (some cid2) now2 dbr2)
            "export_pdf" = auditCount db2x "export_pdf" + 1
          rw [auditCount_append_same]
          rw [haud2 "export_pdf" (by decide) (by decide)]

/-- Witness for C9: on `db0`, carol (no access to case 1) gets absent exports
with no export audit rows; owner alice gets both exports with exactly one
`export_json` and one `export_pdf` audit row appended. -/
theorem C9_witness :
    (get_case_payload 0 1 carol 30 db0).1 = Except.ok none ∧
    (((export_json 0 1 carol 30 db0).1 = Except.ok none ∧
      auditCount (export_json 0 1 carol 30 db0).2 "export_json" =
        auditCount db0 "export_json" ∧
      (export_pdf 0 1 carol 30 db0).1 = Except.ok none ∧
      auditCount (export_pdf 0 1 carol 30 db0).2 "export_pdf" =
        auditCount db0 "export_pdf") ∧
     (isSomeOk (export_json 0 1 alice 31 db0).1 = true ∧
      auditCount (export_json 0 1 alice 31 db0).2 "export_json" =
        auditCount db0 "export_json" + 1 ∧
      isSomeOk (export_pdf 0 1 alice 31 db0).1 = true ∧
      auditCount (export_pdf 0 1 alice 31 db0).2 "export_pdf" =
        auditCount db0 "export_pdf" + 1)) :=
  ⟨rfl,
   C9_export_audit_discipline 0 1 30 db0 carol 0 1 31 db0 alice payloadDoc rfl rfl⟩

end MedTriage
